import Mathlib

/-!
Shallow embedding of the DeliveryGenie priority scorer.

Source of truth: `src/src/app/api/orders/calculate-priority/route.ts`
(class `OrderPriorityCalculator`, handler `POST`).  The file
`src/src/app/page.tsx` contains a near-identical copy of the calculator
(same tables, same step functions, same weights, same classification);
the embedding below follows the route.ts version, which is the richer of
the two (it additionally returns the score `breakdown` and
`minutes_until_deadline`).

JavaScript numbers are embedded as `JsNum`: exact rationals extended with
`nan`, `posInf` and `negInf`.  Finite arithmetic is modelled exactly on ℚ
(the idealisation of IEEE doubles used throughout this development); the
special values are needed because the source computes `Math.max(...[])`
(= -Infinity) and `Math.min(...[])` (= Infinity) on an order with no
products, and `0 / 0` (= NaN) in the batch summary for an empty batch.

Timestamps (`order_time`, `delivery_window_end`) are ISO-8601 strings in
the source, immediately converted via `new Date(s).getTime()` to a
millisecond count; the embedding carries them directly as rational
millisecond counts (i.e. already parsed, structurally valid dates).
-/

/-- JavaScript number: NaN, the two infinities, or a finite value
(modelled as an exact rational). -/
inductive JsNum where
  | nan : JsNum
  | negInf : JsNum
  | posInf : JsNum
  | fin : ℚ → JsNum
deriving DecidableEq, Repr

namespace JsNum

/-- JavaScript addition on `JsNum` (IEEE rules for the special values;
exact rational addition on finite values). -/
def add : JsNum → JsNum → JsNum
  | nan, _ => nan
  | _, nan => nan
  | posInf, negInf => nan
  | negInf, posInf => nan
  | posInf, _ => posInf
  | _, posInf => posInf
  | negInf, _ => negInf
  | _, negInf => negInf
  | fin a, fin b => fin (a + b)

/-- JavaScript negation on `JsNum`. -/
def neg : JsNum → JsNum
  | nan => nan
  | posInf => negInf
  | negInf => posInf
  | fin a => fin (-a)

/-- JavaScript subtraction on `JsNum`. -/
def sub (a b : JsNum) : JsNum := add a (neg b)

/-- JavaScript multiplication on `JsNum` (IEEE rules: `Infinity * 0` is
NaN, otherwise infinities follow the sign of the other factor). -/
def mul : JsNum → JsNum → JsNum
  | nan, _ => nan
  | _, nan => nan
  | posInf, posInf => posInf
  | posInf, negInf => negInf
  | negInf, posInf => negInf
  | negInf, negInf => posInf
  | posInf, fin b => if b = 0 then nan else if 0 < b then posInf else negInf
  | fin a, posInf => if a = 0 then nan else if 0 < a then posInf else negInf
  | negInf, fin b => if b = 0 then nan else if 0 < b then negInf else posInf
  | fin a, negInf => if a = 0 then nan else if 0 < a then negInf else posInf
  | fin a, fin b => fin (a * b)

/-- JavaScript division on `JsNum` (IEEE rules: `0 / 0` is NaN, a nonzero
finite value divided by zero is a signed infinity, a finite value divided
by an infinity is zero, an infinity divided by an infinity is NaN). -/
def div : JsNum → JsNum → JsNum
  | nan, _ => nan
  | _, nan => nan
  | posInf, posInf => nan
  | posInf, negInf => nan
  | negInf, posInf => nan
  | negInf, negInf => nan
  | posInf, fin b => if 0 ≤ b then posInf else negInf
  | negInf, fin b => if 0 ≤ b then negInf else posInf
  | fin _, posInf => fin 0
  | fin _, negInf => fin 0
  | fin a, fin b =>
    if b = 0 then (if a = 0 then nan else if 0 < a then posInf else negInf)
    else fin (a / b)

/-- JavaScript comparison `a <= b` (false whenever NaN is involved). -/
def leB : JsNum → JsNum → Bool
  | nan, _ => false
  | _, nan => false
  | negInf, _ => true
  | _, posInf => true
  | posInf, _ => false
  | _, negInf => false
  | fin a, fin b => decide (a ≤ b)

/-- JavaScript comparison `a >= b` (false whenever NaN is involved). -/
def geB : JsNum → JsNum → Bool
  | nan, _ => false
  | _, nan => false
  | posInf, _ => true
  | _, negInf => true
  | negInf, _ => false
  | _, posInf => false
  | fin a, fin b => decide (b ≤ a)

/-- `Math.round`: round half towards positive infinity on finite values
(`Math.round x = ⌊x + 1/2⌋`, computed via `Rat.floor`); NaN and the
infinities are returned unchanged. -/
def round : JsNum → JsNum
  | nan => nan
  | posInf => posInf
  | negInf => negInf
  | fin a => fin ((Rat.floor (a + 1/2) : ℤ) : ℚ)

end JsNum

/-- `Math.max(...xs)` over a list of finite numbers: `-Infinity` when the
list is empty, otherwise the (finite) maximum. -/
def jsMaxList (l : List ℚ) : JsNum :=
  l.foldl (fun acc q => match acc with
    | JsNum.negInf => JsNum.fin q
    | JsNum.fin m => JsNum.fin (max m q)
    | other => other) JsNum.negInf

/-- `Math.min(...xs)` over a list of finite numbers: `Infinity` when the
list is empty, otherwise the (finite) minimum. -/
def jsMinList (l : List ℚ) : JsNum :=
  l.foldl (fun acc q => match acc with
    | JsNum.posInf => JsNum.fin q
    | JsNum.fin m => JsNum.fin (min m q)
    | other => other) JsNum.posInf

/-- Product record (interface `Product` in route.ts).  `price`,
`quantity` and `expiration_hours` are JavaScript numbers; in the expected
input domain they are finite, so they are carried as rationals. -/
structure Product where
  product_id : String
  name : String
  category : String
  price : ℚ
  quantity : ℚ
  expiration_hours : ℚ
deriving DecidableEq, Repr

/-- Order record (interface `Order` in route.ts).  `order_time` and
`delivery_window_end` are the parsed timestamps in milliseconds. -/
structure Order where
  order_id : String
  customer_name : String
  customer_address : String
  customer_priority : String
  order_time : ℚ
  delivery_window_end : ℚ
  products : List Product
deriving DecidableEq, Repr

/-- One entry of the `tempRequirements` lookup table: a score and a
human-readable label. -/
structure TempEntry where
  score : ℚ
  label : String
deriving DecidableEq, Repr

/-- The `tempRequirements` table of `OrderPriorityCalculator`:
category → { score, label }.  `none` models a lookup of an unrecognized
key (JavaScript `undefined`). -/
def tempRequirements : String → Option TempEntry
  | "hot_food" => some ⟨100, "ร้อน 60-70°C"⟩
  | "frozen" => some ⟨90, "แช่แข็ง -18°C"⟩
  | "chilled" => some ⟨75, "เย็น 0-4°C"⟩
  | "beverage" => some ⟨40, "เย็น 15-20°C"⟩
  | "snack" => some ⟨20, "ปกติ"⟩
  | "daily_goods" => some ⟨20, "ปกติ"⟩
  | "medicine" => some ⟨60, "ปกติ (ยา)"⟩
  | _ => none

/-- The `customerPriorityScores` table of `OrderPriorityCalculator`. -/
def customerPriorityScores : String → Option ℚ
  | "urgent" => some 100
  | "high" => some 75
  | "standard" => some 50
  | "economy" => some 25
  | _ => none

/-- The per-product temperature score
`this.tempRequirements[p.category]?.score || 20`: the recognised score,
except that `||` replaces both `undefined` (unrecognized category) and a
falsy `0` score by the fallback `20`. -/
def tempScoreOf (category : String) : ℚ :=
  match tempRequirements category with
  | some e => if e.score = 0 then 20 else e.score
  | none => 20

/-- Method `scoreExpiration` of `OrderPriorityCalculator` (route.ts lines
113-119).  The argument can be `Infinity` (empty product list), so it is
taken as a `JsNum`; every comparison with NaN is false, so NaN would fall
through to 30, exactly as in JavaScript. -/
def scoreExpiration (hours : JsNum) : ℚ :=
  if hours.leB (JsNum.fin 3) then 100
  else if hours.leB (JsNum.fin 8) then 90
  else if hours.leB (JsNum.fin 24) then 70
  else if hours.leB (JsNum.fin 168) then 50
  else 30

/-- Method `scoreValue` of `OrderPriorityCalculator` (route.ts lines
121-127).  The total value of an order is always finite, so the argument
is a rational. -/
def scoreValue (value : ℚ) : ℚ :=
  if 500 ≤ value then 100
  else if 200 ≤ value then 80
  else if 100 ≤ value then 60
  else if 50 ≤ value then 40
  else 20

/-- Method `scoreDeliveryWindow` of `OrderPriorityCalculator` (route.ts
lines 129-135).  Minutes remaining is always finite (a difference of two
parsed timestamps divided by 60000), so the argument is a rational. -/
def scoreDeliveryWindow (minutes : ℚ) : ℚ :=
  if minutes ≤ 15 then 100
  else if minutes ≤ 30 then 90
  else if minutes ≤ 60 then 70
  else if minutes ≤ 120 then 50
  else 30

/-- Method `classifyPriority` of `OrderPriorityCalculator` (route.ts
lines 137-142).  The total score can be `-Infinity` (empty product list),
so the argument is a `JsNum`; `-Infinity >= c` is false for every finite
`c`, so such a score classifies as "low". -/
def classifyPriority (score : JsNum) : String :=
  if score.geB (JsNum.fin 75) then "critical"
  else if score.geB (JsNum.fin 60) then "high"
  else if score.geB (JsNum.fin 40) then "medium"
  else "low"

/-- The `breakdown` object built by `calculateOrderPriority`: each field
is the component score already multiplied by its weight.  Only the
temperature component can be non-finite (`-Infinity * 0.30` on an empty
product list). -/
structure Breakdown where
  temperature : JsNum
  expiration : ℚ
  customer_priority : ℚ
  value : ℚ
  delivery_window : ℚ
  fragility : ℚ
deriving DecidableEq, Repr

/-- The record returned by `calculateOrderPriority` (route.ts lines
101-110). -/
structure ScoredOrder where
  order_id : String
  priority_score : JsNum
  priority_class : String
  breakdown : Breakdown
  highest_temp_requirement : String
  total_value : ℚ
  earliest_expiration : JsNum
  minutes_until_deadline : ℤ
deriving DecidableEq, Repr

/-- The list `tempScores` of `calculateOrderPriority` (route.ts lines
49-51): one temperature score per product. -/
def tempScoresOf (order : Order) : List ℚ :=
  order.products.map (fun p => tempScoreOf p.category)

/-- The local `maxTempScore = Math.max(...tempScores)` (route.ts line
52). -/
def maxTempScoreOf (order : Order) : JsNum :=
  jsMaxList (tempScoresOf order)

/-- The local `highestTempProduct` (route.ts lines 53-55):
`order.products.find(p => this.tempRequirements[p.category]?.score ===
maxTempScore)`.  For an unrecognized category the left side is
`undefined`, and `undefined === maxTempScore` is false. -/
def highestTempProductOf (order : Order) : Option Product :=
  order.products.find? (fun p =>
    match tempRequirements p.category with
    | some e => JsNum.fin e.score = maxTempScoreOf order
    | none => false)

/-- The key `highestTempProduct?.category || 'snack'` of the final table
access (route.ts line 56); `||` also replaces a falsy empty-string
category by `'snack'`. -/
def tempKeyOf (order : Order) : String :=
  match highestTempProductOf order with
  | some p => if p.category = "" then "snack" else p.category
  | none => "snack"

/-- The local `minExpiration = Math.min(...expirations)` (route.ts lines
59-60). -/
def minExpirationOf (order : Order) : JsNum :=
  jsMinList (order.products.map (fun p => p.expiration_hours))

/-- The local `customerScore = customerPriorityScores[...] || 50`
(route.ts line 64); `||` replaces both `undefined` and a falsy `0` by
50. -/
def customerScoreOf (order : Order) : ℚ :=
  match customerPriorityScores order.customer_priority with
  | some s => if s = 0 then 50 else s
  | none => 50

/-- The local `totalValue = order.products.reduce((sum, p) => sum +
p.price * p.quantity, 0)` (route.ts line 67). -/
def totalValueOf (order : Order) : ℚ :=
  order.products.foldl (fun sum p => sum + p.price * p.quantity) 0

/-- The local `minutesRemaining = (deliveryEnd.getTime() -
now.getTime()) / (1000 * 60)` (route.ts lines 71-72), where the source's
`now` is `new Date(order.order_time)` (route.ts line 46) — the order's
own stored timestamp; the method takes no scoring-time parameter. -/
def minutesRemainingOf (order : Order) : ℚ :=
  (order.delivery_window_end - order.order_time) / (1000 * 60)

/-- The local `hasMedicine` (route.ts line 76). -/
def hasMedicineOf (order : Order) : Bool :=
  order.products.any (fun p => p.category = "medicine")

/-- The local `fragilityScore = hasMedicine ? 100 : 30` (route.ts line
77). -/
def fragilityScoreOf (order : Order) : ℚ :=
  if hasMedicineOf order then 100 else 30

/-- The `breakdown` object (route.ts lines 89-96): each component score
multiplied by its weight (0.30 / 0.25 / 0.15 / 0.10 / 0.15 / 0.05). -/
def breakdownOf (order : Order) : Breakdown :=
  { temperature := (maxTempScoreOf order).mul (JsNum.fin (3/10))
    expiration := scoreExpiration (minExpirationOf order) * (1/4)
    customer_priority := customerScoreOf order * (3/20)
    value := scoreValue (totalValueOf order) * (1/10)
    delivery_window := scoreDeliveryWindow (minutesRemainingOf order) * (3/20)
    fragility := fragilityScoreOf order * (1/20) }

/-- The local `totalScore = Object.values(breakdown).reduce((sum, val)
=> sum + val, 0)` (route.ts line 98), in the source's field order. -/
def totalScoreOf (order : Order) : JsNum :=
  (((((JsNum.add (JsNum.fin 0) (breakdownOf order).temperature).add
    (JsNum.fin (breakdownOf order).expiration)).add
    (JsNum.fin (breakdownOf order).customer_priority)).add
    (JsNum.fin (breakdownOf order).value)).add
    (JsNum.fin (breakdownOf order).delivery_window)).add
    (JsNum.fin (breakdownOf order).fragility)

/-- The returned `priority_score = Math.round(totalScore * 100) / 100`
(route.ts line 103). -/
def priorityScoreOf (order : Order) : JsNum :=
  (JsNum.round ((totalScoreOf order).mul (JsNum.fin 100))).div (JsNum.fin 100)

/-- Method `calculateOrderPriority` of `OrderPriorityCalculator`
(route.ts lines 45-111), assembled from the named locals above.  The
result is an `Option`: `none` marks the one expression that could throw
a `TypeError` (`tempRequirement.label` when the final table lookup
yields `undefined`); `tempRequirements_tempKeyOf_isSome` below proves
that this never happens. -/
def calculateOrderPriority (order : Order) : Option ScoredOrder :=
  match tempRequirements (tempKeyOf order) with
  | none => none
  | some tempRequirement =>
    some
      { order_id := order.order_id
        priority_score := priorityScoreOf order
        priority_class := classifyPriority (totalScoreOf order)
        breakdown := breakdownOf order
        highest_temp_requirement := tempRequirement.label
        total_value := totalValueOf order
        earliest_expiration := minExpirationOf order
        minutes_until_deadline := Rat.floor (minutesRemainingOf order + 1/2) }

/-- Total version of `calculateOrderPriority`; the fallback record is
never used (`calculateOrderPriority_eq_calcT` below), it only makes the
function total. -/
def calcT (o : Order) : ScoredOrder :=
  (calculateOrderPriority o).getD
    ⟨"", JsNum.nan, "", ⟨JsNum.nan, 0, 0, 0, 0, 0⟩, "", 0, JsNum.nan, 0⟩

/-- Sign of a comparator result, as consumed by `Array.prototype.sort`
(ES `SortCompare`): a negative value keeps the first argument first, a
positive value swaps, everything else — including NaN, which `SortCompare`
replaces by `+0` — counts as a tie. -/
def JsNum.toOrdering : JsNum → Ordering
  | nan => Ordering.eq
  | negInf => Ordering.lt
  | posInf => Ordering.gt
  | fin q => if q < 0 then Ordering.lt else if 0 < q then Ordering.gt else Ordering.eq

/-- The comparator `(a, b) => b.priority_score - a.priority_score` passed
to `sort` in the POST handler (route.ts line 162), reduced to its sign. -/
def compareScored (a b : ScoredOrder) : Ordering :=
  (JsNum.sub b.priority_score a.priority_score).toOrdering

/-- Insert an element into an already-sorted list, passing every element
that must stay before it (comparator `gt` means "swap"); the element
lands after all elements that compare as ties, which is what makes the
sort stable. -/
def insertScored (a : ScoredOrder) : List ScoredOrder → List ScoredOrder
  | [] => [a]
  | b :: l =>
    if compareScored a b = Ordering.gt then b :: insertScored a l
    else a :: b :: l

/-- `results.sort((a, b) => b.priority_score - a.priority_score)`
(route.ts line 162): `Array.prototype.sort` is stable (ES2019), so with a
consistent comparator its output is the unique stable descending order,
reproduced here by stable insertion sort. -/
def jsSortScored : List ScoredOrder → List ScoredOrder
  | [] => []
  | a :: l => insertScored a (jsSortScored l)

/-- A scored order together with the `suggested_delivery_order` field
that the POST handler adds after sorting. -/
structure RankedOrder where
  scored : ScoredOrder
  suggested_delivery_order : ℕ
deriving DecidableEq, Repr

/-- `sorted.forEach((result, index) => result.suggested_delivery_order =
index + 1)` (route.ts lines 165-167): rank `i + 1` for the element at
index `i`, starting from `i = startIdx`. -/
def assignRanks (startIdx : ℕ) : List ScoredOrder → List RankedOrder
  | [] => []
  | a :: l => ⟨a, startIdx + 1⟩ :: assignRanks (startIdx + 1) l

/-- `orders.map(order => calculator.calculateOrderPriority(order))`
inside the handler's try-block: the first thrown error aborts the whole
map (and is caught as a 500), hence the `Option` sequencing. -/
def calcAll : List Order → Option (List ScoredOrder)
  | [] => some []
  | o :: rest =>
    match calculateOrderPriority o with
    | none => none
    | some so =>
      match calcAll rest with
      | none => none
      | some l => some (so :: l)

/-- The `summary` object of the POST response (route.ts lines 173-179). -/
structure Summary where
  critical : ℕ
  high : ℕ
  medium : ℕ
  low : ℕ
  avg_score : JsNum
deriving DecidableEq, Repr

/-- The three possible responses of the POST handler: the 200 payload,
the 400 invalid-request error, and the 500 internal error. -/
inductive PostResponse where
  | ok (total_orders : ℕ) (orders : List RankedOrder) (summary : Summary)
  | clientError
  | serverError
deriving DecidableEq, Repr

/-- Handler `POST` (route.ts lines 146-188), from the point where the
body is parsed: `none` for the `orders` field models a missing or
non-array field (rejected with status 400); a thrown error while scoring
maps to the 500 branch; otherwise the orders are scored, sorted, ranked
and summarised.  Note `avg_score` divides by `sorted.length` without
guarding against an empty batch. -/
def POST (ordersField : Option (List Order)) : PostResponse :=
  match ordersField with
  | none => PostResponse.clientError
  | some orders =>
    match calcAll orders with
    | none => PostResponse.serverError
    | some results =>
      let sorted := jsSortScored results
      let ranked := assignRanks 0 sorted
      PostResponse.ok sorted.length ranked
        { critical := sorted.countP (fun o => o.priority_class = "critical")
          high := sorted.countP (fun o => o.priority_class = "high")
          medium := sorted.countP (fun o => o.priority_class = "medium")
          low := sorted.countP (fun o => o.priority_class = "low")
          avg_score :=
            (sorted.foldl (fun sum o => sum.add o.priority_score) (JsNum.fin 0)).div
              (JsNum.fin sorted.length) }

/-- The ranking pipeline applied to a batch of orders (score each order,
stable-sort descending, assign 1-based ranks) — the composition the POST
handler performs on a valid batch (`POST_eq_rankOrders` below ties the
two together). -/
def rankOrders (orders : List Order) : List RankedOrder :=
  assignRanks 0 (jsSortScored (orders.map calcT))

/-- Scoring as a function of an ambient wall clock: a JavaScript method
body may observe the current time via `Date.now()` or `new Date()`, so
the faithful embedding of "an invocation at wall-clock time `t`" passes
`t` explicitly.  `calculateOrderPriority` never reads the clock (its
`now` is `new Date(order.order_time)`), so the parameter is unused. -/
def calculateOrderPriorityAt (ambientClockMs : ℚ) (order : Order) : Option ScoredOrder :=
  calculateOrderPriority order

/-- Ordering of scored orders by priority score, "greater or equal" in
the JavaScript `>=` sense; the sorted batch is non-increasing under this
relation. -/
def scoredGe (a b : ScoredOrder) : Prop :=
  JsNum.geB a.priority_score b.priority_score = true

/-- Scenario 1 of the spec: a single hot_food item, price 65, quantity
1, expiration 3 h, customer_priority urgent, delivery window closing 25
minutes after the time the scorer uses as "now" (its `order_time`). -/
def scenario1Order : Order :=
  { order_id := "ORD-S1"
    customer_name := "scenario one"
    customer_address := "address one"
    customer_priority := "urgent"
    order_time := 0
    delivery_window_end := 25 * 60000
    products := [{ product_id := "P1", name := "hot box", category := "hot_food",
                   price := 65, quantity := 1, expiration_hours := 3 }] }

/-- Scenario 2 of the spec: one medicine product, price 120, quantity 1,
expiration 17520 h, customer_priority standard, delivery window closing
200 minutes after the scorer's "now". -/
def scenario2Order : Order :=
  { order_id := "ORD-S2"
    customer_name := "scenario two"
    customer_address := "address two"
    customer_priority := "standard"
    order_time := 0
    delivery_window_end := 200 * 60000
    products := [{ product_id := "P2", name := "paracetamol", category := "medicine",
                   price := 120, quantity := 1, expiration_hours := 17520 }] }

/-- An order with an empty product list (degenerate input). -/
def emptyProductsOrder : Order :=
  { order_id := "ORD-E0"
    customer_name := "no products"
    customer_address := "address zero"
    customer_priority := "urgent"
    order_time := 0
    delivery_window_end := 60 * 60000
    products := [] }

/-- An order whose only products carry categories outside the seven
recognized ones. -/
def unknownCategoryOrder : Order :=
  { order_id := "ORD-U1"
    customer_name := "unknown categories"
    customer_address := "address u"
    customer_priority := "standard"
    order_time := 0
    delivery_window_end := 90 * 60000
    products := [{ product_id := "P3", name := "mystery", category := "gadget",
                   price := 10, quantity := 2, expiration_hours := 500 },
                 { product_id := "P4", name := "mystery 2", category := "",
                   price := 5, quantity := 1, expiration_hours := 700 }] }

/-! Basic facts about the lookup tables and step functions. -/

theorem tempRequirements_score_cases (c : String) (e : TempEntry)
    (h : tempRequirements c = some e) :
    e.score = 100 ∨ e.score = 90 ∨ e.score = 75 ∨ e.score = 40 ∨ e.score = 20 ∨ e.score = 60 := by
  unfold tempRequirements at h
  split at h <;> simp only [Option.some.injEq, reduceCtorEq] at h <;> subst h <;> decide

theorem tempScoreOf_cases (c : String) :
    tempScoreOf c = 100 ∨ tempScoreOf c = 90 ∨ tempScoreOf c = 75 ∨
      tempScoreOf c = 40 ∨ tempScoreOf c = 20 ∨ tempScoreOf c = 60 := by
  unfold tempScoreOf
  cases h : tempRequirements c with
  | none => dsimp only; norm_num
  | some e =>
    dsimp only
    rcases tempRequirements_score_cases c e h with h1 | h1 | h1 | h1 | h1 | h1 <;>
      rw [h1] <;> norm_num

theorem tempScoreOf_pred (c : String) :
    20 ≤ tempScoreOf c ∧ tempScoreOf c ≤ 100 ∧ ∃ k : ℤ, tempScoreOf c = 5 * k := by
  rcases tempScoreOf_cases c with h | h | h | h | h | h <;> rw [h]
  · exact ⟨by norm_num, by norm_num, 20, by norm_num⟩
  · exact ⟨by norm_num, by norm_num, 18, by norm_num⟩
  · exact ⟨by norm_num, by norm_num, 15, by norm_num⟩
  · exact ⟨by norm_num, by norm_num, 8, by norm_num⟩
  · exact ⟨by norm_num, by norm_num, 4, by norm_num⟩
  · exact ⟨by norm_num, by norm_num, 12, by norm_num⟩

theorem scoreExpiration_cases (h : JsNum) :
    scoreExpiration h = 100 ∨ scoreExpiration h = 90 ∨ scoreExpiration h = 70 ∨
      scoreExpiration h = 50 ∨ scoreExpiration h = 30 := by
  unfold scoreExpiration
  split_ifs <;> norm_num

theorem scoreValue_cases (v : ℚ) :
    scoreValue v = 100 ∨ scoreValue v = 80 ∨ scoreValue v = 60 ∨
      scoreValue v = 40 ∨ scoreValue v = 20 := by
  unfold scoreValue
  split_ifs <;> norm_num

theorem scoreDeliveryWindow_cases (m : ℚ) :
    scoreDeliveryWindow m = 100 ∨ scoreDeliveryWindow m = 90 ∨ scoreDeliveryWindow m = 70 ∨
      scoreDeliveryWindow m = 50 ∨ scoreDeliveryWindow m = 30 := by
  unfold scoreDeliveryWindow
  split_ifs <;> norm_num

theorem customerPriorityScores_cases (c : String) (s : ℚ)
    (h : customerPriorityScores c = some s) :
    s = 100 ∨ s = 75 ∨ s = 50 ∨ s = 25 := by
  unfold customerPriorityScores at h
  split at h <;> simp only [Option.some.injEq, reduceCtorEq] at h <;> subst h <;> norm_num

theorem customerScoreOf_cases (o : Order) :
    customerScoreOf o = 100 ∨ customerScoreOf o = 75 ∨ customerScoreOf o = 50 ∨
      customerScoreOf o = 25 := by
  unfold customerScoreOf
  cases h : customerPriorityScores o.customer_priority with
  | none => dsimp only; norm_num
  | some s =>
    dsimp only
    rcases customerPriorityScores_cases _ s h with h1 | h1 | h1 | h1 <;>
      rw [h1] <;> norm_num

theorem fragilityScoreOf_cases (o : Order) :
    fragilityScoreOf o = 100 ∨ fragilityScoreOf o = 30 := by
  unfold fragilityScoreOf
  split_ifs <;> norm_num

/-! Facts about the empty-tolerant maximum and the scorer's totality. -/

theorem jsMaxList_cons (l : List ℚ) (x : ℚ) :
    jsMaxList (x :: l) = JsNum.fin (List.foldl max x l) := by
  induction l generalizing x with
  | nil => rfl
  | cons y l ih =>
    rw [show jsMaxList (x :: y :: l) = jsMaxList (max x y :: l) from rfl, ih]
    rfl

theorem foldl_max_pred (P : ℚ → Prop) :
    ∀ (l : List ℚ) (x : ℚ), P x → (∀ y ∈ l, P y) → P (List.foldl max x l)
  | [], x, hx, _ => hx
  | y :: l, x, hx, hl => by
    rw [List.foldl_cons]
    refine foldl_max_pred P l (max x y) ?_ (fun z hz => hl z (List.mem_cons_of_mem y hz))
    rcases max_choice x y with h | h <;> rw [h]
    · exact hx
    · exact hl y (List.mem_cons_self y l)

theorem maxTempScoreOf_of_ne_nil (o : Order) (h : o.products ≠ []) :
    ∃ t : ℚ, maxTempScoreOf o = JsNum.fin t ∧ 20 ≤ t ∧ t ≤ 100 ∧ ∃ k : ℤ, t = 5 * k := by
  rcases List.exists_cons_of_ne_nil h with ⟨p, ps, hps⟩
  have hmap : tempScoresOf o = tempScoreOf p.category :: ps.map (fun q => tempScoreOf q.category) := by
    rw [tempScoresOf, hps, List.map_cons]
  refine ⟨List.foldl max (tempScoreOf p.category) (ps.map (fun q => tempScoreOf q.category)),
    by rw [maxTempScoreOf, hmap, jsMaxList_cons], ?_⟩
  have := foldl_max_pred
    (fun q => 20 ≤ q ∧ q ≤ 100 ∧ ∃ k : ℤ, q = 5 * k)
    (ps.map (fun q => tempScoreOf q.category)) (tempScoreOf p.category)
    (tempScoreOf_pred p.category) ?_
  · exact this
  · intro y hy
    rcases List.mem_map.mp hy with ⟨q, _, hq⟩
    rw [← hq]
    exact tempScoreOf_pred q.category

theorem maxTempScoreOf_of_nil (o : Order) (h : o.products = []) :
    maxTempScoreOf o = JsNum.negInf := by
  rw [maxTempScoreOf, tempScoresOf, h]
  rfl

theorem tempRequirements_tempKeyOf_isSome (o : Order) :
    (tempRequirements (tempKeyOf o)).isSome := by
  unfold tempKeyOf
  cases h : highestTempProductOf o with
  | none => rfl
  | some p =>
    have hp := List.find?_some h
    cases hcat : tempRequirements p.category with
    | none => rw [hcat] at hp; simp at hp
    | some e =>
      have hne : p.category ≠ "" := by
        intro hempty
        rw [hempty, show tempRequirements "" = none from rfl] at hcat
        exact Option.noConfusion hcat
      dsimp only
      rw [if_neg hne, hcat]
      rfl

theorem calculateOrderPriority_eq_calcT (o : Order) :
    calculateOrderPriority o = some (calcT o) := by
  rcases Option.isSome_iff_exists.mp (tempRequirements_tempKeyOf_isSome o) with ⟨e, he⟩
  rw [calcT, calculateOrderPriority, he]
  rfl

theorem calcT_priority_score (o : Order) :
    (calcT o).priority_score = priorityScoreOf o := by
  rcases Option.isSome_iff_exists.mp (tempRequirements_tempKeyOf_isSome o) with ⟨e, he⟩
  rw [calcT, calculateOrderPriority, he]
  rfl

theorem calcT_priority_class (o : Order) :
    (calcT o).priority_class = classifyPriority (totalScoreOf o) := by
  rcases Option.isSome_iff_exists.mp (tempRequirements_tempKeyOf_isSome o) with ⟨e, he⟩
  rw [calcT, calculateOrderPriority, he]
  rfl

theorem calcT_breakdown (o : Order) :
    (calcT o).breakdown = breakdownOf o := by
  rcases Option.isSome_iff_exists.mp (tempRequirements_tempKeyOf_isSome o) with ⟨e, he⟩
  rw [calcT, calculateOrderPriority, he]
  rfl

/-! Granularity of the component scores: every weighted component is a
quarter-integer, so `Math.round(totalScore * 100) / 100` is the identity
on every achievable total score. -/

theorem scoreExpiration_mult10 (h : JsNum) : ∃ m : ℤ, scoreExpiration h = 10 * m := by
  rcases scoreExpiration_cases h with h1 | h1 | h1 | h1 | h1 <;> rw [h1]
  · exact ⟨10, by norm_num⟩
  · exact ⟨9, by norm_num⟩
  · exact ⟨7, by norm_num⟩
  · exact ⟨5, by norm_num⟩
  · exact ⟨3, by norm_num⟩

theorem scoreValue_mult20 (v : ℚ) : ∃ u : ℤ, scoreValue v = 20 * u := by
  rcases scoreValue_cases v with h1 | h1 | h1 | h1 | h1 <;> rw [h1]
  · exact ⟨5, by norm_num⟩
  · exact ⟨4, by norm_num⟩
  · exact ⟨3, by norm_num⟩
  · exact ⟨2, by norm_num⟩
  · exact ⟨1, by norm_num⟩

theorem scoreDeliveryWindow_mult10 (m : ℚ) : ∃ s : ℤ, scoreDeliveryWindow m = 10 * s := by
  rcases scoreDeliveryWindow_cases m with h1 | h1 | h1 | h1 | h1 <;> rw [h1]
  · exact ⟨10, by norm_num⟩
  · exact ⟨9, by norm_num⟩
  · exact ⟨7, by norm_num⟩
  · exact ⟨5, by norm_num⟩
  · exact ⟨3, by norm_num⟩

theorem customerScoreOf_mult25 (o : Order) : ∃ n : ℤ, customerScoreOf o = 25 * n := by
  rcases customerScoreOf_cases o with h1 | h1 | h1 | h1 <;> rw [h1]
  · exact ⟨4, by norm_num⟩
  · exact ⟨3, by norm_num⟩
  · exact ⟨2, by norm_num⟩
  · exact ⟨1, by norm_num⟩

theorem fragilityScoreOf_mult10 (o : Order) : ∃ r : ℤ, fragilityScoreOf o = 10 * r := by
  rcases fragilityScoreOf_cases o with h1 | h1 <;> rw [h1]
  · exact ⟨10, by norm_num⟩
  · exact ⟨3, by norm_num⟩

theorem totalScoreOf_eq_fin (o : Order) (t : ℚ) (h : maxTempScoreOf o = JsNum.fin t) :
    totalScoreOf o = JsNum.fin (0 + t * (3/10) + scoreExpiration (minExpirationOf o) * (1/4) +
      customerScoreOf o * (3/20) + scoreValue (totalValueOf o) * (1/10) +
      scoreDeliveryWindow (minutesRemainingOf o) * (3/20) + fragilityScoreOf o * (1/20)) := by
  simp only [totalScoreOf, breakdownOf, h]
  rfl

theorem totalScoreOf_eq_negInf (o : Order) (h : maxTempScoreOf o = JsNum.negInf) :
    totalScoreOf o = JsNum.negInf := by
  simp only [totalScoreOf, breakdownOf, h]
  norm_num [JsNum.mul, JsNum.add]

theorem totalScoreOf_shape (o : Order) :
    totalScoreOf o = JsNum.negInf ∨ ∃ k : ℤ, totalScoreOf o = JsNum.fin ((k : ℚ) / 4) := by
  by_cases hp : o.products = []
  · exact Or.inl (totalScoreOf_eq_negInf o (maxTempScoreOf_of_nil o hp))
  · right
    obtain ⟨t, ht, _, _, k, hk⟩ := maxTempScoreOf_of_ne_nil o hp
    obtain ⟨m, hm⟩ := scoreExpiration_mult10 (minExpirationOf o)
    obtain ⟨n, hn⟩ := customerScoreOf_mult25 o
    obtain ⟨u, hu⟩ := scoreValue_mult20 (totalValueOf o)
    obtain ⟨s, hs⟩ := scoreDeliveryWindow_mult10 (minutesRemainingOf o)
    obtain ⟨r, hr⟩ := fragilityScoreOf_mult10 o
    refine ⟨6 * k + 10 * m + 15 * n + 8 * u + 6 * s + 2 * r, ?_⟩
    rw [totalScoreOf_eq_fin o t ht, hk, hm, hn, hu, hs, hr]
    congr 1
    push_cast
    ring

theorem ratFloor_eq_intFloor (q : ℚ) : Rat.floor q = ⌊q⌋ := by
  rw [Rat.floor_def, Rat.floor_def']

theorem priorityScoreOf_eq_totalScoreOf (o : Order) :
    priorityScoreOf o = totalScoreOf o := by
  rcases totalScoreOf_shape o with h | ⟨k, h⟩
  · rw [priorityScoreOf, h]
    norm_num [JsNum.mul, JsNum.round, JsNum.div]
  · rw [priorityScoreOf, h]
    have h1 : (JsNum.fin ((k : ℚ) / 4)).mul (JsNum.fin 100) = JsNum.fin (((25 * k : ℤ) : ℚ)) := by
      simp only [JsNum.mul]
      congr 1
      push_cast
      ring
    have h2 : JsNum.round (JsNum.fin (((25 * k : ℤ) : ℚ))) = JsNum.fin (((25 * k : ℤ) : ℚ)) := by
      simp only [JsNum.round]
      congr 1
      rw [ratFloor_eq_intFloor, Int.floor_int_add]
      norm_num
    rw [h1, h2]
    simp only [JsNum.div]
    rw [if_neg (by norm_num : ¬(100 : ℚ) = 0)]
    congr 1
    push_cast
    ring

theorem calcT_score_shape (o : Order) :
    (calcT o).priority_score = JsNum.negInf ∨
      ∃ k : ℤ, (calcT o).priority_score = JsNum.fin ((k : ℚ) / 4) := by
  rw [calcT_priority_score, priorityScoreOf_eq_totalScoreOf]
  exact totalScoreOf_shape o

theorem calcT_score_ne_nan (o : Order) : (calcT o).priority_score ≠ JsNum.nan := by
  rcases calcT_score_shape o with h | ⟨k, h⟩ <;> rw [h] <;> simp

/-! Correctness of the embedded stable sort. -/

theorem JsNum.geB_trans {a b c : JsNum} (h1 : JsNum.geB a b = true)
    (h2 : JsNum.geB b c = true) : JsNum.geB a c = true := by
  cases a <;> cases b <;> cases c <;> simp_all [JsNum.geB] <;> linarith

theorem compareScored_gt (x y : ScoredOrder) (h : compareScored x y = Ordering.gt) :
    JsNum.geB y.priority_score x.priority_score = true := by
  unfold compareScored at h
  cases hx : x.priority_score <;> cases hy : y.priority_score <;> rw [hx, hy] at h <;>
    simp_all [JsNum.sub, JsNum.add, JsNum.neg, JsNum.toOrdering, JsNum.geB]

theorem compareScored_ne_gt (x y : ScoredOrder)
    (hx : x.priority_score ≠ JsNum.nan) (hy : y.priority_score ≠ JsNum.nan)
    (h : ¬compareScored x y = Ordering.gt) :
    JsNum.geB x.priority_score y.priority_score = true := by
  unfold compareScored at h
  cases hxs : x.priority_score <;> cases hys : y.priority_score <;> rw [hxs, hys] at h <;>
    simp_all [JsNum.sub, JsNum.add, JsNum.neg, JsNum.toOrdering, JsNum.geB]
  exact le_of_not_lt fun hlt => absurd (h hlt.le) hlt.not_le

theorem insertScored_perm (x : ScoredOrder) (l : List ScoredOrder) :
    List.Perm (insertScored x l) (x :: l) := by
  induction l with
  | nil => exact List.Perm.refl _
  | cons b l ih =>
    rw [insertScored]
    split_ifs with h
    · exact (ih.cons b).trans (List.Perm.swap x b l)
    · exact List.Perm.refl _

theorem jsSortScored_perm (l : List ScoredOrder) : List.Perm (jsSortScored l) l := by
  induction l with
  | nil => exact List.Perm.refl _
  | cons a l ih =>
    exact (insertScored_perm a (jsSortScored l)).trans (ih.cons a)

theorem mem_insertScored {y x : ScoredOrder} {l : List ScoredOrder} :
    y ∈ insertScored x l ↔ y = x ∨ y ∈ l := by
  rw [(insertScored_perm x l).mem_iff, List.mem_cons]

theorem sorted_insertScored (x : ScoredOrder) (l : List ScoredOrder)
    (hx : x.priority_score ≠ JsNum.nan) (hl : ∀ y ∈ l, y.priority_score ≠ JsNum.nan)
    (hs : List.Sorted scoredGe l) : List.Sorted scoredGe (insertScored x l) := by
  induction l with
  | nil => simp [insertScored]
  | cons b l ih =>
    rw [insertScored]
    split_ifs with h
    · rw [List.sorted_cons] at hs ⊢
      obtain ⟨hb, hst⟩ := hs
      refine ⟨?_, ih (fun y hy => hl y (List.mem_cons_of_mem b hy)) hst⟩
      intro y hy
      rcases mem_insertScored.mp hy with rfl | hy2
      · exact compareScored_gt y b h
      · exact hb y hy2
    · rw [List.sorted_cons]
      refine ⟨?_, hs⟩
      intro y hy
      have hxb : scoredGe x b :=
        compareScored_ne_gt x b hx (hl b (List.mem_cons_self b l)) h
      rcases List.mem_cons.mp hy with rfl | hy2
      · exact hxb
      · rw [List.sorted_cons] at hs
        exact JsNum.geB_trans hxb (hs.1 y hy2)

theorem sorted_jsSortScored (l : List ScoredOrder)
    (hl : ∀ y ∈ l, y.priority_score ≠ JsNum.nan) :
    List.Sorted scoredGe (jsSortScored l) := by
  induction l with
  | nil => exact List.sorted_nil
  | cons a l ih =>
    show List.Sorted scoredGe (insertScored a (jsSortScored l))
    refine sorted_insertScored a _ (hl a (List.mem_cons_self a l)) ?_ (ih ?_)
    · intro y hy
      exact hl y (List.mem_cons_of_mem a ((jsSortScored_perm l).mem_iff.mp hy))
    · intro y hy
      exact hl y (List.mem_cons_of_mem a hy)

theorem filter_insertScored (p : ScoredOrder → Bool)
    (hp : ∀ a b : ScoredOrder, p a = true → p b = true → compareScored a b ≠ Ordering.gt)
    (x : ScoredOrder) (l : List ScoredOrder) :
    (insertScored x l).filter p = if p x then x :: l.filter p else l.filter p := by
  induction l with
  | nil =>
    cases hpx : p x <;> simp [insertScored, List.filter, hpx]
  | cons b l ih =>
    by_cases hc : compareScored x b = Ordering.gt
    · rw [insertScored, if_pos hc, List.filter_cons, ih, List.filter_cons]
      by_cases hpx : p x = true
      · have hpb : ¬p b = true := fun hpb => hp x b hpx hpb hc
        simp only [if_pos hpx, if_neg hpb]
      · simp only [if_neg hpx]
    · rw [insertScored, if_neg hc, List.filter_cons]

theorem filter_jsSortScored (p : ScoredOrder → Bool)
    (hp : ∀ a b : ScoredOrder, p a = true → p b = true → compareScored a b ≠ Ordering.gt)
    (l : List ScoredOrder) :
    (jsSortScored l).filter p = l.filter p := by
  induction l with
  | nil => rfl
  | cons a l ih =>
    show (insertScored a (jsSortScored l)).filter p = _
    rw [filter_insertScored p hp, ih, List.filter_cons]

theorem assignRanks_map_scored (l : List ScoredOrder) : ∀ n : ℕ,
    (assignRanks n l).map (fun r => r.scored) = l := by
  induction l with
  | nil => intro n; rfl
  | cons a l ih => intro n; simp [assignRanks, ih]

theorem assignRanks_map_rank (l : List ScoredOrder) : ∀ n : ℕ,
    (assignRanks n l).map (fun r => r.suggested_delivery_order) =
      List.range' (n + 1) l.length := by
  induction l with
  | nil => intro n; rfl
  | cons a l ih =>
    intro n
    simp [assignRanks, ih, List.range']

theorem calcAll_eq_map (l : List Order) : calcAll l = some (l.map calcT) := by
  induction l with
  | nil => rfl
  | cons o l ih =>
    simp only [calcAll, calculateOrderPriority_eq_calcT o, ih, List.map_cons]

/-! Bounds of the component scores. -/

theorem scoreExpiration_bounds (h : JsNum) :
    30 ≤ scoreExpiration h ∧ scoreExpiration h ≤ 100 := by
  rcases scoreExpiration_cases h with h1 | h1 | h1 | h1 | h1 <;> rw [h1] <;> norm_num

theorem scoreValue_bounds (v : ℚ) : 20 ≤ scoreValue v ∧ scoreValue v ≤ 100 := by
  rcases scoreValue_cases v with h1 | h1 | h1 | h1 | h1 <;> rw [h1] <;> norm_num

theorem scoreDeliveryWindow_bounds (m : ℚ) :
    30 ≤ scoreDeliveryWindow m ∧ scoreDeliveryWindow m ≤ 100 := by
  rcases scoreDeliveryWindow_cases m with h1 | h1 | h1 | h1 | h1 <;> rw [h1] <;> norm_num

theorem customerScoreOf_bounds (o : Order) :
    25 ≤ customerScoreOf o ∧ customerScoreOf o ≤ 100 := by
  rcases customerScoreOf_cases o with h1 | h1 | h1 | h1 <;> rw [h1] <;> norm_num

theorem fragilityScoreOf_bounds (o : Order) :
    30 ≤ fragilityScoreOf o ∧ fragilityScoreOf o ≤ 100 := by
  rcases fragilityScoreOf_cases o with h1 | h1 <;> rw [h1] <;> norm_num

theorem compareScored_eq_of_eq (a b : ScoredOrder)
    (h : a.priority_score = b.priority_score) : compareScored a b = Ordering.eq := by
  unfold compareScored
  rw [h]
  cases hb : b.priority_score <;> norm_num [JsNum.sub, JsNum.add, JsNum.neg, JsNum.toOrdering]

/-! The claims. -/

/-- C6: for a single hot_food product of price 65, quantity 1,
expiration 3 h, customer_priority urgent, and a delivery window closing
25 minutes after the time the scorer uses as "now", the scorer returns
priority_score 89.0 and class "critical", with components temp = 100,
expiration = 100, customer = 100, value = 40, window = 90, fragility =
30 (each recorded in the breakdown multiplied by its weight). -/
theorem claim6_scenario1_hot_food :
    calculateOrderPriority scenario1Order = some
      { order_id := "ORD-S1"
        priority_score := JsNum.fin 89
        priority_class := "critical"
        breakdown := { temperature := JsNum.fin (100 * (3/10))
                       expiration := 100 * (1/4)
                       customer_priority := 100 * (3/20)
                       value := 40 * (1/10)
                       delivery_window := 90 * (3/20)
                       fragility := 30 * (1/20) }
        highest_temp_requirement := "ร้อน 60-70°C"
        total_value := 65
        earliest_expiration := JsNum.fin 3
        minutes_until_deadline := 25 } := by
  simp +decide only [calculateOrderPriority, tempKeyOf, highestTempProductOf, maxTempScoreOf,
    tempScoresOf, scenario1Order, tempScoreOf, tempRequirements, jsMaxList, minExpirationOf,
    jsMinList, customerScoreOf, customerPriorityScores, totalValueOf, minutesRemainingOf,
    fragilityScoreOf, hasMedicineOf, breakdownOf, totalScoreOf, priorityScoreOf,
    scoreExpiration, scoreValue, scoreDeliveryWindow, classifyPriority, JsNum.leB, JsNum.geB,
    JsNum.mul, JsNum.add, JsNum.div, JsNum.round, ratFloor_eq_intFloor, List.find?, List.map,
    List.foldl, List.any]
  norm_num
  rfl

/-- C7: for one medicine product of price 120, quantity 1, expiration
17520 h, customer_priority standard, and a delivery window closing 200
minutes after the time the scorer uses as "now", the scorer returns
priority_score 48.5 and class "medium", with components temp = 60,
expiration = 30, customer = 50, value = 60, window = 30, fragility =
100. -/
theorem claim7_scenario2_medicine :
    calculateOrderPriority scenario2Order = some
      { order_id := "ORD-S2"
        priority_score := JsNum.fin (485/10)
        priority_class := "medium"
        breakdown := { temperature := JsNum.fin (60 * (3/10))
                       expiration := 30 * (1/4)
                       customer_priority := 50 * (3/20)
                       value := 60 * (1/10)
                       delivery_window := 30 * (3/20)
                       fragility := 100 * (1/20) }
        highest_temp_requirement := "ปกติ (ยา)"
        total_value := 120
        earliest_expiration := JsNum.fin 17520
        minutes_until_deadline := 200 } := by
  simp +decide only [calculateOrderPriority, tempKeyOf, highestTempProductOf, maxTempScoreOf,
    tempScoresOf, scenario2Order, tempScoreOf, tempRequirements, jsMaxList, minExpirationOf,
    jsMinList, customerScoreOf, customerPriorityScores, totalValueOf, minutesRemainingOf,
    fragilityScoreOf, hasMedicineOf, breakdownOf, totalScoreOf, priorityScoreOf,
    scoreExpiration, scoreValue, scoreDeliveryWindow, classifyPriority, JsNum.leB, JsNum.geB,
    JsNum.mul, JsNum.add, JsNum.div, JsNum.round, ratFloor_eq_intFloor, List.find?, List.map,
    List.foldl, List.any]
  norm_num
  rfl

/-- C9: scoring is deterministic — the scorer is a pure function of the
order alone; in particular two invocations at different ambient
wall-clock times return identical results, because the source never
reads the clock (its "now" is the order's own `order_time`). -/
theorem claim9_deterministic :
    ∀ (o : Order) (clock1 clock2 : ℚ),
      calculateOrderPriorityAt clock1 o = calculateOrderPriorityAt clock2 o :=
  fun _ _ _ => rfl

/-- C10: a well-formed request with an empty `orders` array yields a
success response with `total_orders = 0` whose `summary.avg_score` is
the unguarded `0 / 0`, i.e. NaN, not a documented default. -/
theorem claim10_empty_batch_nan_avg :
    POST (some []) = PostResponse.ok 0 []
      { critical := 0, high := 0, medium := 0, low := 0, avg_score := JsNum.nan } := by
  simp only [POST, calcAll, jsSortScored, assignRanks, rankOrders, JsNum.div, List.countP,
    List.countP.go, List.foldl, List.length]
  norm_num

/-- C1 (counterexample): the claim reads the delivery-window component
off a scoring-time `now` passed to the scorer; but the scorer takes no
such parameter, and for an order whose window ends 25 minutes after its
`order_time`, scoring "125 minutes later" still yields the 25-minute
bucket (90 · 0.15), not the overdue bucket (100 · 0.15) the claim would
require. -/
theorem claim1_counterexample :
    ¬ ∀ (o : Order) (now : ℚ),
        (calcT o).breakdown.delivery_window =
          scoreDeliveryWindow ((o.delivery_window_end - now) / (1000 * 60)) * (3/20) := by
  intro hall
  have h := hall scenario1Order 7500000
  rw [calcT_breakdown] at h
  norm_num [breakdownOf, minutesRemainingOf, scenario1Order, scoreDeliveryWindow] at h

/-- C1 (amended): the delivery-window component is computed from
minutes remaining = (`delivery_window_end` − `order_time`) / 60000 —
the scorer's "now" is the order's own stored `order_time`, not a
scoring-time parameter — and that minutes value is mapped by the step
function ≤15→100, ≤30→90, ≤60→70, ≤120→50, else→30, then weighted by
0.15. -/
theorem claim1_window_from_order_time (o : Order) :
    (calcT o).breakdown.delivery_window =
      scoreDeliveryWindow ((o.delivery_window_end - o.order_time) / (1000 * 60)) * (3/20) ∧
    ∀ m : ℚ,
      (m ≤ 15 → scoreDeliveryWindow m = 100) ∧
      (15 < m → m ≤ 30 → scoreDeliveryWindow m = 90) ∧
      (30 < m → m ≤ 60 → scoreDeliveryWindow m = 70) ∧
      (60 < m → m ≤ 120 → scoreDeliveryWindow m = 50) ∧
      (120 < m → scoreDeliveryWindow m = 30) := by
  constructor
  · rw [calcT_breakdown]
    rfl
  · intro m
    unfold scoreDeliveryWindow
    refine ⟨fun h => if_pos h, fun h1 h2 => ?_, fun h1 h2 => ?_, fun h1 h2 => ?_,
      fun h1 => ?_⟩
    · rw [if_neg (by linarith), if_pos h2]
    · rw [if_neg (by linarith), if_neg (by linarith), if_pos h2]
    · rw [if_neg (by linarith), if_neg (by linarith), if_neg (by linarith), if_pos h2]
    · rw [if_neg (by linarith), if_neg (by linarith), if_neg (by linarith),
        if_neg (by linarith)]

/-- Witness for the amended C1, at the scenario-1 order and the concrete
bucket input 25 (15 < 25 ≤ 30 → 90). -/
theorem claim1_window_witness :
    (calcT scenario1Order).breakdown.delivery_window =
      scoreDeliveryWindow
        ((scenario1Order.delivery_window_end - scenario1Order.order_time) / (1000 * 60)) *
        (3/20) ∧
    scoreDeliveryWindow 25 = 90 :=
  ⟨(claim1_window_from_order_time scenario1Order).1,
   ((claim1_window_from_order_time scenario1Order).2 25).2.1 (by norm_num) (by norm_num)⟩

/-- C2: for every order with at least one product, the returned
priority_score is a finite number in the closed interval [0, 100]. -/
theorem claim2_priority_score_bounds (o : Order) (h : o.products ≠ []) :
    ∃ q : ℚ, (calcT o).priority_score = JsNum.fin q ∧ 0 ≤ q ∧ q ≤ 100 := by
  obtain ⟨t, ht, ht20, ht100, _⟩ := maxTempScoreOf_of_ne_nil o h
  obtain ⟨he30, he100⟩ := scoreExpiration_bounds (minExpirationOf o)
  obtain ⟨hc25, hc100⟩ := customerScoreOf_bounds o
  obtain ⟨hv20, hv100⟩ := scoreValue_bounds (totalValueOf o)
  obtain ⟨hw30, hw100⟩ := scoreDeliveryWindow_bounds (minutesRemainingOf o)
  obtain ⟨hf30, hf100⟩ := fragilityScoreOf_bounds o
  refine ⟨0 + t * (3/10) + scoreExpiration (minExpirationOf o) * (1/4) +
      customerScoreOf o * (3/20) + scoreValue (totalValueOf o) * (1/10) +
      scoreDeliveryWindow (minutesRemainingOf o) * (3/20) + fragilityScoreOf o * (1/20),
    ?_, by linarith, by linarith⟩
  rw [calcT_priority_score, priorityScoreOf_eq_totalScoreOf]
  exact totalScoreOf_eq_fin o t ht

/-- Witness for C2 at the scenario-1 order (one hot_food product). -/
theorem claim2_bounds_witness :
    scenario1Order.products ≠ [] ∧
      ∃ q : ℚ, (calcT scenario1Order).priority_score = JsNum.fin q ∧ 0 ≤ q ∧ q ≤ 100 :=
  ⟨by decide, claim2_priority_score_bounds scenario1Order (by decide)⟩

/-- C5: for every order whose product list is empty, the scorer still
returns a defined result (no exception), and the returned
priority_score is not NaN — it is `-Infinity`. -/
theorem claim5_empty_products_total (o : Order) (h : o.products = []) :
    ∃ so : ScoredOrder, calculateOrderPriority o = some so ∧
      so.priority_score ≠ JsNum.nan ∧ so.priority_score = JsNum.negInf := by
  refine ⟨calcT o, calculateOrderPriority_eq_calcT o, calcT_score_ne_nan o, ?_⟩
  rw [calcT_priority_score, priorityScoreOf_eq_totalScoreOf]
  exact totalScoreOf_eq_negInf o (maxTempScoreOf_of_nil o h)

/-- Witness for C5 at a concrete order with no products. -/
theorem claim5_empty_witness :
    emptyProductsOrder.products = [] ∧
      ∃ so : ScoredOrder, calculateOrderPriority emptyProductsOrder = some so ∧
        so.priority_score ≠ JsNum.nan ∧ so.priority_score = JsNum.negInf :=
  ⟨rfl, claim5_empty_products_total emptyProductsOrder rfl⟩

/-- C4: the priority class is exactly the thresholding of the rounded
priority score (rounding is the identity on every achievable total
score, so classifying the unrounded total, as the code does, agrees):
critical iff score ≥ 75, high iff 60 ≤ score < 75, medium iff 40 ≤
score < 60, low iff score < 40; in particular 75.00 is critical, 74.99
is high, 60.00 is high and 39.99 is low. -/
theorem claim4_classification_boundaries :
    (∀ o : Order, (calcT o).priority_class = classifyPriority (calcT o).priority_score) ∧
    (∀ q : ℚ,
      (classifyPriority (JsNum.fin q) = "critical" ↔ 75 ≤ q) ∧
      (classifyPriority (JsNum.fin q) = "high" ↔ 60 ≤ q ∧ q < 75) ∧
      (classifyPriority (JsNum.fin q) = "medium" ↔ 40 ≤ q ∧ q < 60) ∧
      (classifyPriority (JsNum.fin q) = "low" ↔ q < 40)) ∧
    classifyPriority (JsNum.fin 75) = "critical" ∧
    classifyPriority (JsNum.fin (7499/100)) = "high" ∧
    classifyPriority (JsNum.fin 60) = "high" ∧
    classifyPriority (JsNum.fin (3999/100)) = "low" := by
  have hchar : ∀ q : ℚ,
      (classifyPriority (JsNum.fin q) = "critical" ↔ 75 ≤ q) ∧
      (classifyPriority (JsNum.fin q) = "high" ↔ 60 ≤ q ∧ q < 75) ∧
      (classifyPriority (JsNum.fin q) = "medium" ↔ 40 ≤ q ∧ q < 60) ∧
      (classifyPriority (JsNum.fin q) = "low" ↔ q < 40) := by
    intro q
    unfold classifyPriority
    simp only [JsNum.geB, decide_eq_true_eq]
    by_cases h75 : 75 ≤ q
    · rw [if_pos h75]
      exact ⟨iff_of_true rfl h75,
        iff_of_false (by decide) (fun hc => absurd h75 (not_le.mpr hc.2)),
        iff_of_false (by decide) (fun hc => absurd h75 (not_le.mpr (hc.2.trans (by norm_num)))),
        iff_of_false (by decide)
          (fun hc => absurd h75 (not_le.mpr (hc.trans_le (by norm_num))))⟩
    · rw [if_neg h75]
      push_neg at h75
      by_cases h60 : 60 ≤ q
      · rw [if_pos h60]
        exact ⟨iff_of_false (by decide) (not_le.mpr h75),
          iff_of_true rfl ⟨h60, h75⟩,
          iff_of_false (by decide) (fun hc => absurd h60 (not_le.mpr hc.2)),
          iff_of_false (by decide)
            (fun hc => absurd h60 (not_le.mpr (hc.trans_le (by norm_num))))⟩
      · rw [if_neg h60]
        push_neg at h60
        by_cases h40 : 40 ≤ q
        · rw [if_pos h40]
          exact ⟨iff_of_false (by decide) (not_le.mpr h75),
            iff_of_false (by decide) (fun hc => absurd hc.1 (not_le.mpr h60)),
            iff_of_true rfl ⟨h40, h60⟩,
            iff_of_false (by decide) (not_lt.mpr h40)⟩
        · rw [if_neg h40]
          push_neg at h40
          exact ⟨iff_of_false (by decide) (not_le.mpr h75),
            iff_of_false (by decide) (fun hc => absurd hc.1 (not_le.mpr h60)),
            iff_of_false (by decide) (fun hc => absurd hc.1 (not_le.mpr h40)),
            iff_of_true rfl h40⟩
  refine ⟨?_, hchar, ?_, ?_, ?_, ?_⟩
  · intro o
    rw [calcT_priority_class, calcT_priority_score, priorityScoreOf_eq_totalScoreOf]
  · exact (hchar 75).1.mpr (by norm_num)
  · exact (hchar (7499/100)).2.1.mpr (by norm_num)
  · exact (hchar 60).2.1.mpr (by norm_num)
  · exact (hchar (3999/100)).2.2.2.mpr (by norm_num)

/-- C8: for every non-empty order all of whose products carry a
category outside the seven recognized ones, the scorer does not crash:
every product contributes the fallback temperature score 20 (so the
weighted temperature component is 20 · 0.30), and the reported
highest_temp_requirement is the label of the "snack" fallback entry. -/
theorem claim8_unrecognized_categories (o : Order) (hne : o.products ≠ [])
    (hcat : ∀ p ∈ o.products, tempRequirements p.category = none) :
    ∃ so : ScoredOrder, calculateOrderPriority o = some so ∧
      (∀ p ∈ o.products, tempScoreOf p.category = 20) ∧
      so.breakdown.temperature = JsNum.fin (20 * (3/10)) ∧
      ∃ e : TempEntry, tempRequirements "snack" = some e ∧
        so.highest_temp_requirement = e.label := by
  have hscore : ∀ p ∈ o.products, tempScoreOf p.category = 20 := by
    intro p hp
    unfold tempScoreOf
    rw [hcat p hp]
  have hmax : maxTempScoreOf o = JsNum.fin 20 := by
    rcases List.exists_cons_of_ne_nil hne with ⟨p, ps, hps⟩
    rw [maxTempScoreOf, tempScoresOf, hps, List.map_cons, jsMaxList_cons]
    congr 1
    have h20 : tempScoreOf p.category = 20 :=
      hscore p (by rw [hps]; exact List.mem_cons_self p ps)
    refine foldl_max_pred (fun q => q = 20) (ps.map fun q => tempScoreOf q.category)
      (tempScoreOf p.category) h20 ?_
    intro y hy
    rcases List.mem_map.mp hy with ⟨q, hq, rfl⟩
    exact hscore q (by rw [hps]; exact List.mem_cons_of_mem p hq)
  have hfind : highestTempProductOf o = none := by
    rw [highestTempProductOf, List.find?_eq_none]
    intro p hp
    rw [hcat p hp]
    simp
  have hkey : tempKeyOf o = "snack" := by rw [tempKeyOf, hfind]
  have he : tempRequirements (tempKeyOf o) = some ⟨20, "ปกติ"⟩ := by rw [hkey]; rfl
  refine ⟨calcT o, calculateOrderPriority_eq_calcT o, hscore, ?_, ⟨20, "ปกติ"⟩, rfl, ?_⟩
  · rw [calcT_breakdown]
    show (maxTempScoreOf o).mul (JsNum.fin (3/10)) = _
    rw [hmax]
    show JsNum.fin (20 * (3/10)) = _
    rfl
  · rw [calcT, calculateOrderPriority, he]
    rfl

/-- Witness for C8 at a concrete two-product order whose categories
("gadget" and the empty string) are unrecognized. -/
theorem claim8_unrecognized_witness :
    (unknownCategoryOrder.products ≠ [] ∧
      ∀ p ∈ unknownCategoryOrder.products, tempRequirements p.category = none) ∧
    ∃ so : ScoredOrder, calculateOrderPriority unknownCategoryOrder = some so ∧
      (∀ p ∈ unknownCategoryOrder.products, tempScoreOf p.category = 20) ∧
      so.breakdown.temperature = JsNum.fin (20 * (3/10)) ∧
      ∃ e : TempEntry, tempRequirements "snack" = some e ∧
        so.highest_temp_requirement = e.label :=
  ⟨⟨by decide, by decide⟩,
   claim8_unrecognized_categories unknownCategoryOrder (by decide) (by decide)⟩

/-- C3: for every batch, the POST handler ranks the scored orders with
suggested_delivery_order values forming the contiguous sequence 1..N,
in non-increasing order of priority_score, and orders with equal
priority_score keep their original relative input order (stable
sort). -/
theorem claim3_rank_contiguous_sorted_stable (orders : List Order) :
    (∃ s : Summary, POST (some orders) =
        PostResponse.ok orders.length (rankOrders orders) s) ∧
    (rankOrders orders).map (fun r => r.suggested_delivery_order) =
      List.range' 1 orders.length ∧
    List.Sorted scoredGe ((rankOrders orders).map (fun r => r.scored)) ∧
    ∀ v : JsNum,
      ((rankOrders orders).map (fun r => r.scored)).filter
          (fun so => so.priority_score = v) =
        (orders.map calcT).filter (fun so => so.priority_score = v) := by
  have hlen : (jsSortScored (orders.map calcT)).length = orders.length := by
    rw [(jsSortScored_perm (orders.map calcT)).length_eq, List.length_map]
  have hscored : (rankOrders orders).map (fun r => r.scored) =
      jsSortScored (orders.map calcT) := by
    rw [rankOrders]
    exact assignRanks_map_scored (jsSortScored (orders.map calcT)) 0
  refine ⟨?_, ?_, ?_, ?_⟩
  · simp only [POST, calcAll_eq_map]
    rw [hlen]
    exact ⟨_, rfl⟩
  · rw [rankOrders, assignRanks_map_rank, hlen]
  · rw [hscored]
    refine sorted_jsSortScored (orders.map calcT) ?_
    intro y hy
    rcases List.mem_map.mp hy with ⟨o2, _, rfl⟩
    exact calcT_score_ne_nan o2
  · intro v
    rw [hscored]
    refine filter_jsSortScored _ ?_ _
    intro a b ha hb
    have ha2 : a.priority_score = v := of_decide_eq_true ha
    have hb2 : b.priority_score = v := of_decide_eq_true hb
    rw [compareScored_eq_of_eq a b (ha2.trans hb2.symm)]
    decide
